import Mathlib

/-!
# Verification of the agent-swarm conversation orchestration core

Shallow embedding of the orchestration engine of the repository
(`graph.py`, `agents/router.py`, `agents/support.py`,
`agents/personality.py`, `tools.py`).  External collaborators (the
completion service, the file system, fresh UUIDs, the wall clock) are
modelled as explicit parameters of the embedded functions: an LLM call
becomes an `Except String String` value (exception message or reply
text), file loads become `Except String RequestData`, UUID fragments
and timestamps become plain string arguments.  Python dictionaries with
possibly-absent keys are modelled with `Option`; Python truthiness of
optional strings/booleans is made explicit via `truthyStr`/`truthyB`.
-/

namespace AgentSwarm

/-- Python truthiness of an optional string: `None` and `""` are falsy. -/
def truthyStr : Option String → Bool
  | none => false
  | some s => s ≠ ""

/-- Python truthiness of an optional boolean: `None` and `False` are falsy. -/
def truthyB : Option Bool → Bool
  | none => false
  | some b => b

/-!
String primitives.  The embedding uses its own character-list-structural
versions of the Python string operations (`str.lower`, `str.upper`,
`str.strip`, substring membership, `str.split`, integer parsing) so that
every definition evaluates by kernel reduction.  All inputs occurring in
the sources are ASCII, where `Char.toLower`/`Char.toUpper` agree with
Python.
-/

/-- Python `str.lower()` (ASCII). -/
def strLower (s : String) : String :=
  String.mk (s.data.map Char.toLower)

/-- Python `str.upper()` (ASCII). -/
def strUpper (s : String) : String :=
  String.mk (s.data.map Char.toUpper)

/-- Python `str.strip()`: drop leading and trailing whitespace. -/
def strStrip (s : String) : String :=
  String.mk (((s.data.dropWhile Char.isWhitespace).reverse.dropWhile Char.isWhitespace).reverse)

/-- Whether `hay` starts with `needle` (character lists). -/
def leadsWith : List Char → List Char → Bool
  | [], _ => true
  | _ :: _, [] => false
  | x :: xs, y :: ys => x = y && leadsWith xs ys

/-- Whether `needle` occurs in `hay` (character lists). -/
def occursIn (needle : List Char) : List Char → Bool
  | [] => needle.isEmpty
  | h :: t => leadsWith needle (h :: t) || occursIn needle t

/-- Python `needle in hay` on strings. -/
def containsSub (hay needle : String) : Bool :=
  occursIn needle.data hay.data

/-- Split a character list on a separator character (Python
`str.split(sep)` for a one-character separator). -/
def splitChar (c : Char) : List Char → List (List Char)
  | [] => [[]]
  | x :: xs =>
    match splitChar c xs with
    | [] => [[]]
    | g :: gs => if x = c then [] :: g :: gs else (x :: g) :: gs

/-- Parse a non-empty all-digit character list as a decimal number
(`48 = '0'.toNat`). -/
def parseNatChars (l : List Char) : Option Nat :=
  if l ≠ [] ∧ l.all Char.isDigit then
    some (l.foldl (fun n c => n * 10 + (c.toNat - 48)) 0)
  else none

/-- Message roles, mirroring `HumanMessage` / `AIMessage` / `SystemMessage`. -/
inductive Role
  | human
  | ai
  | system
deriving DecidableEq, Repr

/-- One transcript message. -/
structure Msg where
  role : Role
  content : String
deriving DecidableEq, Repr

/-- One recorded call of the routing LLM (`tool_outputs["router_llm"]["calls"]`). -/
structure RouterCall where
  input : String
  output : String
  model : String
  status : String
  timestamp : String
deriving DecidableEq, Repr

/-- The `tool_outputs["router_llm"]` record. -/
structure RouterLlm where
  calls : List RouterCall
  total_uses : Nat
  last_used : Option String
deriving DecidableEq, Repr

/-- One `tool_outputs[name]` entry of an action tool.  The Python value
is a dict; we keep it as an association list of string fields. -/
structure ActionRecord where
  input : List (String × String)
  output : String
  timestamp : String
deriving DecidableEq, Repr

/-- One `tool_usage` entry. -/
structure ToolCall where
  tool : String
  input : List (String × String)
  output : String
  timestamp : String
deriving DecidableEq, Repr

/-- One `tool_outputs["personality_llm"]` entry (its `input` is a plain string). -/
structure PersonalityRecord where
  input : String
  output : String
  timestamp : String
deriving DecidableEq, Repr

/-- The `tool_outputs` mapping, with one field per tool name used by the
sources.  An absent key is represented by `none` (router_llm) or `[]`
(list-valued tools); no modelled code distinguishes an absent key from
an empty list. -/
structure ToolOutputs where
  router_llm : Option RouterLlm := none
  create_support_ticket : List ActionRecord := []
  schedule_support_call : List ActionRecord := []
  personality_llm : List PersonalityRecord := []
deriving DecidableEq, Repr

/-- One `workflow_history` entry.  The Python entries are heterogeneous
dicts; we keep the string-valued fields the claims can observe
(`tool_calls` snapshots duplicate `tool_outputs` and are not repeated
here). -/
structure WfEntry where
  agent_name : String
  action : Option String := none
  input : Option String := none
  output : Option String := none
  error : Option String := none
  timestamp : Option String := none
deriving DecidableEq, Repr

/-- The `support_context` scratch record. -/
structure SupportContext where
  current_ticket : Option String := none
  current_appointment : Option String := none
  interaction_history : List String := []
deriving DecidableEq, Repr

/-- The final payload assembled by the personality agent. -/
structure Payload where
  response : String
  source_agent_response : String
  agent_workflow : List WfEntry
  conversation_active : Bool
  needs_followup : Bool
  error : Option String := none
deriving DecidableEq, Repr

/-- The shared `AgentState` record (`state.py` plus the extra keys the
agents create).  `agent_outcome` is modelled by the worker outcome's
`"output"` text; boolean flags that the code reads with
`state.get(key, default)` are `Option Bool` so that an absent key stays
representable.  Defaults mirror the fresh state built by
`invoke_graph`. -/
structure AgentState where
  input : String := ""
  messages : List Msg := []
  agent_outcome : Option String := none
  next : String := ""
  tool_outputs : ToolOutputs := {}
  tool_usage : List ToolCall := []
  last_tool : Option String := none
  tool_result : Option String := none
  workflow_history : List WfEntry := []
  personality_output : Option Payload := none
  error : Option String := none
  is_complete : Option Bool := some false
  conversation_active : Option Bool := some true
  needs_followup : Option Bool := some true
  task_list : List String := []
  agent_stack : List String := []
  current_agent : Option String := none
  support_context : Option SupportContext := none
deriving DecidableEq, Repr

/-- The langgraph `END` marker (the string `"__end__"`). -/
def END : String := "__end__"

/-- `router.py` line 95: the explicit end commands. -/
def endTokens : List String := ["goodbye", "bye", "exit", "quit", "end"]

/-- The router/worker/formatter model identifier recorded in the audit
structures. -/
def routerModel : String := "meta-llama/llama-4-maverick-17b-128e-instruct"

/-- `router.py` lines 63-92: state initialization and the
`start_routing` audit entry appended at the top of `route_message`. -/
def route_init (s0 : AgentState) (now : String) : AgentState :=
  { s0 with
    current_agent := some "router",
    agent_stack := s0.agent_stack ++ ["router"],
    conversation_active := some (s0.conversation_active.getD true),
    needs_followup := some (s0.needs_followup.getD true),
    workflow_history := s0.workflow_history ++
      [{ agent_name := "router", action := some "start_routing",
         input := some s0.input, timestamp := some now }] }

/-- `router.py` lines 173-186: final validation of the routing decision
(lower/strip, map `"end"` to `END`, default unknown values to
`"support"`) followed by the loop-prevention override. -/
def route_validate (next_agent : String) (s : AgentState) : String :=
  let next_agent := strLower (strStrip next_agent)
  let next_agent := if next_agent = "end" then END else next_agent
  let next_agent :=
    if next_agent ∉ ["knowledge", "support", END] then "support" else next_agent
  if next_agent = END && s.conversation_active.getD true && s.needs_followup.getD true then
    "support"
  else next_agent

/-- `router.py` lines 100-171: the decision part of `route_message`
that runs after the completion service replied with `content` — record
the call, map the reply, append the completion audit entry, and apply
the agent-outcome/conversation-state adjustments.  Returns the decision
before final validation together with the updated state. -/
def route_decide (s : AgentState) (content : String) (now : String) : String × AgentState :=
  let next_agent := strStrip (strLower content)
  -- lines 110-129: record the LLM call into tool_outputs["router_llm"]
  let rl := s.tool_outputs.router_llm.getD { calls := [], total_uses := 0, last_used := none }
  let rl : RouterLlm :=
    { calls := rl.calls ++
        [{ input := s.input, output := next_agent, model := routerModel,
           status := "success", timestamp := now }],
      total_uses := rl.total_uses + 1,
      last_used := some now }
  let s : AgentState := { s with tool_outputs := { s.tool_outputs with router_llm := some rl } }
  -- lines 131-138: map the reply to a decision
  let step1 : String × AgentState :=
    if next_agent = "end" then
      (END, { s with conversation_active := some false, needs_followup := some false })
    else if next_agent ∉ ["knowledge", "support"] then
      ("support", s)
    else
      (next_agent, s)
  let next_agent := step1.1
  let s := step1.2
  -- lines 140-156: complete_routing audit entry
  let s : AgentState := { s with workflow_history := s.workflow_history ++
      [{ agent_name := "router", action := some "complete_routing",
         input := some s.input, output := some next_agent, timestamp := some now }] }
  -- lines 158-171: conversation state and agent outcomes
  let step2 : String × AgentState :=
    if s.agent_outcome.isSome then
      if truthyB s.needs_followup then
        (s.next, s)
      else
        match s.task_list with
        | next_task :: rest =>
            ("support", { s with input := next_task, task_list := rest })
        | [] =>
            (END, { s with conversation_active := some false, needs_followup := some false })
    else if ¬ truthyB s.conversation_active then
      (END, s)
    else
      (next_agent, s)
  step2

/-- `router.py` lines 100-189: decision plus final validation,
loop-prevention override (`route_validate`) and storing the decision. -/
def route_after_llm (s : AgentState) (content : String) (now : String) : AgentState :=
  let r := route_decide s content now
  { r.2 with next := route_validate r.1 r.2 }

/-- `router.py` `route_message`: the Classifier step.  `reply` is the
completion service's behaviour on this call (`.ok content` for a reply,
`.error e` for a raised exception, which the Python code catches at
lines 191-195). -/
def route_message (s0 : AgentState) (reply : Except String String) (now : String) : AgentState :=
  let s := route_init s0 now
  -- lines 94-98: explicit end command fast path (no strip on the input)
  if strLower s.input ∈ endTokens then
    { s with conversation_active := some false, next := END }
  else
    match reply with
    | .error e => { s with next := "support", error := some e }
    | .ok content => route_after_llm s content now

/-- `graph.py` lines 55-79: the conditional edge out of the router node
(returns the name of the next node). -/
def route_edge (s : AgentState) : String :=
  if truthyStr s.error then END
  else if s.next = "" then "support"
  else
    let next_agent := strLower (strStrip s.next)
    if next_agent ∈ ["end", "__end__", END] then END
    else if next_agent ∈ ["knowledge", "support", "router"] then next_agent
    else "support"

/-- `graph.py` lines 6-43 constants: natural-ending indicator phrases. -/
def endIndicators : List String :=
  ["goodbye", "thank you", "thanks", "have a good day", "that\x27s all",
   "ticket has been created", "appointment has been scheduled"]

/-- `graph.py` line 40: the injected follow-up prompt. -/
def followupPrompt : String :=
  "Do you have any other questions or is there anything else I can help you with?"

/-- The content of the last message, or `""` when the transcript is empty
(`graph.py` line 17). -/
def lastMessageContent (messages : List Msg) : String :=
  match messages.getLast? with
  | some m => m.content
  | none => ""

/-- Whether the last message contains one of the natural-ending phrases
(`graph.py` lines 30-33). -/
def naturalEnding (messages : List Msg) : Bool :=
  endIndicators.any (fun indicator => containsSub (strLower (lastMessageContent messages)) indicator)

/-- `graph.py` `should_continue`: the Continuation Policy.  Returns the
(possibly mutated) state and the routing decision. -/
def should_continue (s : AgentState) : AgentState × String :=
  if truthyStr s.error then (s, END)
  else if naturalEnding s.messages then (s, END)
  else if s.needs_followup.getD true then
    ({ s with is_complete := some false, input := followupPrompt }, "router")
  else (s, END)

/-! ## Date and time helpers (the fragment of `datetime` used by `tools.py`) -/

/-- Gregorian leap-year test. -/
def isLeap (y : Nat) : Bool :=
  (y % 4 == 0 && y % 100 != 0) || (y % 400 == 0)

/-- Days in each month (January first). -/
def monthLengths (leap : Bool) : List Nat :=
  [31, if leap then 29 else 28, 31, 30, 31, 30, 31, 31, 30, 31, 30, 31]

/-- `datetime.strptime(s, "%Y-%m-%d")` as used on the literals occurring
in the sources: three dash-separated decimal fields with a valid
calendar month and day (field-width corner cases of `strptime` do not
arise on those literals). -/
def parseDate (s : String) : Option (Nat × Nat × Nat) :=
  match splitChar (Char.ofNat 45) s.data with
  | [ys, ms, ds] =>
    match parseNatChars ys, parseNatChars ms, parseNatChars ds with
    | some y, some m, some d =>
      if 1 ≤ m ∧ m ≤ 12 ∧ 1 ≤ d ∧ d ≤ (monthLengths (isLeap y)).getD (m - 1) 31 then
        some (y, m, d)
      else none
    | _, _, _ => none
  | _ => none

/-- `datetime.strptime(s, "%H:%M").time()` on the literals occurring in
the sources. -/
def parseTime (s : String) : Option (Nat × Nat) :=
  match splitChar (Char.ofNat 58) s.data with
  | [hs, ms] =>
    match parseNatChars hs, parseNatChars ms with
    | some h, some mi => if h ≤ 23 ∧ mi ≤ 59 then some (h, mi) else none
    | _, _ => none
  | _ => none

/-- Sakamoto's day-of-week (0 = Sunday). -/
def sakamoto (y m d : Nat) : Nat :=
  let t : List Nat := [0, 3, 2, 5, 0, 3, 5, 1, 4, 6, 2, 4]
  let y := if m < 3 then y - 1 else y
  (y + y / 4 - y / 100 + y / 400 + t.getD (m - 1) 0 + d) % 7

/-- Python `date.weekday()`: Monday = 0, ..., Sunday = 6. -/
def weekdayMon (y m d : Nat) : Nat :=
  (sakamoto y m d + 6) % 7

/-- Zero-padded two-digit decimal rendering. -/
def pad2 (n : Nat) : String :=
  if n < 10 then "0" ++ toString n else toString n

def monthNames : List String :=
  ["January", "February", "March", "April", "May", "June",
   "July", "August", "September", "October", "November", "December"]

def weekdayNamesMon : List String :=
  ["Monday", "Tuesday", "Wednesday", "Thursday", "Friday", "Saturday", "Sunday"]

/-- `strftime("%A, %B %d, %Y")`. -/
def formatLongDate (y m d : Nat) : String :=
  weekdayNamesMon.getD (weekdayMon y m d) "" ++ ", " ++
    monthNames.getD (m - 1) "" ++ " " ++ pad2 d ++ ", " ++ toString y

/-- `strftime("%I:%M %p")` (12-hour clock, zero-padded). -/
def format12h (h mi : Nat) : String :=
  let h12 := h % 12
  let h12 := if h12 = 0 then 12 else h12
  pad2 h12 ++ ":" ++ pad2 mi ++ " " ++ (if h < 12 then "AM" else "PM")

/-- Python `str.title()` restricted to ASCII letters (the only inputs in
the sources are ASCII words). -/
def pyTitle (s : String) : String :=
  let step := s.toList.foldl
    (fun (acc : List Char × Bool) c =>
      if c.isAlpha then
        (acc.1 ++ [if acc.2 then c.toLower else c.toUpper], true)
      else
        (acc.1 ++ [c], false))
    ([], false)
  String.mk step.1

/-! ## Action tools (`tools.py`) -/

/-- `tools.py` line 78: legal ticket priorities. -/
def priorities : List String := ["low", "normal", "high", "urgent"]

/-- `tools.py` line 80: legal ticket categories. -/
def categories : List String := ["billing", "technical", "account", "general", "refund"]

/-- `tools.py` line 143: legal call types. -/
def callTypes : List String := ["technical", "billing", "consultation", "general"]

/-- `tools.py` `create_support_ticket`.  `uuid8` stands for
`str(uuid.uuid4())[:8]` and `now` for the timestamp; the optional state
argument mirrors `state: AgentState = None`.  Returns the tool's string
output together with the (possibly updated) state. -/
def create_support_ticket (issue_description priority category : String)
    (uuid8 : String) (now : String) (state : Option AgentState) :
    String × Option AgentState :=
  let ticket_id := "TICK-" ++ strUpper uuid8
  let priority := if strLower priority ∉ priorities then "normal" else priority
  let category := if strLower category ∉ categories then "general" else category
  let response :=
    "\n    ✅ Support Ticket Created Successfully!\n    Ticket ID: " ++ ticket_id ++
    "\n    Issue Description: " ++ issue_description ++
    "\n    Expected Response Time:\n    - Low: 24-48 hrs | Normal: 12-24 hrs | High: 4-8 hrs | Urgent: 1-2 hrs\n    "
  match state with
  | none => (response, none)
  | some s =>
    let s : AgentState := { s with
      tool_outputs := { s.tool_outputs with
        create_support_ticket := s.tool_outputs.create_support_ticket ++
          [{ input := [("issue_description", issue_description),
                       ("priority", priority), ("category", category)],
             output := response, timestamp := now }] },
      tool_usage := s.tool_usage ++
        [{ tool := "create_support_ticket",
           input := [("ticket_id", ticket_id), ("issue_description", issue_description)],
           output := response, timestamp := now }],
      last_tool := some "create_support_ticket",
      tool_result := some response }
    (response, some s)

/-- `tools.py` `schedule_support_call`.  Faithful to the source: the
function's parameters are only `issue_summary` and `call_type` — the
preferred date and time are hardcoded constants inside the body
(lines 140-141), despite the docstring documenting `preferred_date` and
`preferred_time` arguments. -/
def schedule_support_call (issue_summary call_type : String)
    (uuid8 : String) (now : String) (state : Option AgentState) :
    String × Option AgentState :=
  let preferred_date := "2025-05-26"
  let preferred_time := "14:30"
  let appointment_id := "APT-" ++ strUpper uuid8
  let call_type := if strLower call_type ∉ callTypes then "general" else call_type
  match parseDate preferred_date, parseTime preferred_time with
  | some (y, m, d), some (h, mi) =>
    if h < 9 ∨ h ≥ 17 then
      ("❌ Error: Time must be between 9:00 AM and 5:00 PM.", state)
    else if weekdayMon y m d ≥ 5 then
      ("❌ Error: Appointments only on weekdays.", state)
    else
      let formatted_date := formatLongDate y m d
      let formatted_time := format12h h mi
      let response :=
        "\n    📞 Support Call Scheduled Successfully!\n    Appointment ID: " ++ appointment_id ++
        "\n    Scheduled: " ++ formatted_date ++ " at " ++ formatted_time ++
        "\n    Call Type: " ++ pyTitle call_type ++
        "\n    Issue: " ++ issue_summary ++
        "\n    Note: Calls occur only during business hours (9 AM - 5 PM, Mon-Fri).\n    "
      match state with
      | none => (response, none)
      | some s =>
        let s : AgentState := { s with
          tool_outputs := { s.tool_outputs with
            schedule_support_call := s.tool_outputs.schedule_support_call ++
              [{ input := [("preferred_date", preferred_date),
                           ("preferred_time", preferred_time),
                           ("issue_summary", issue_summary),
                           ("call_type", call_type)],
                 output := response, timestamp := now }] },
          tool_usage := s.tool_usage ++
            [{ tool := "schedule_support_call",
               input := [("appointment_id", appointment_id),
                         ("date", preferred_date), ("time", preferred_time),
                         ("formatted_datetime", formatted_date ++ " at " ++ formatted_time),
                         ("issue_summary", issue_summary),
                         ("call_type", strLower call_type),
                         ("status", "scheduled"), ("created_at", now)],
               output := response, timestamp := now }],
          last_tool := some "schedule_support_call",
          tool_result := some response }
        (response, some s)
  | _, _ =>
    ("❌ Error: Date format (YYYY-MM-DD) and time format (HH:MM) required.", state)

/-! ## Formatter step (`agents/personality.py`) -/

/-- The fixed apology used by the formatter's failure path
(`personality.py` line 129). -/
def personalityApology : String :=
  "I apologize, but I\x27m having trouble formatting the response. Let me provide the direct answer:"

/-- `personality.py` lines 57-64: extract the original response — the
worker outcome's output if present, else the last message's content when
that message is an `AIMessage`, else `""`. -/
def originalResponse (s : AgentState) : String :=
  match s.agent_outcome with
  | some out => out
  | none =>
    match s.messages.getLast? with
    | some m => if m.role = Role.ai then m.content else ""
    | none => ""

/-- `personality.py` `personality_agent`: the Formatter step.  `llm` is
the completion service (`.error e` models a raised exception, caught by
the `except` block at lines 125-137).  The completion service is only
invoked when the extracted original response is non-empty.  Returns the
mutated state together with the assembled payload (the Python function
returns only the payload; the in-place state mutations are kept for the
audit-trail claims). -/
def personality_agent (s : AgentState) (llm : String → Except String String)
    (now : String) : AgentState × Payload :=
  let original := originalResponse s
  let r := if original = "" then Except.ok original else llm original
  match r with
  | .error e =>
    ({ s with error := some ("Error in personality agent: " ++ e) },
     { response := personalityApology,
       source_agent_response := original,
       agent_workflow := [{ agent_name := "error" }],
       conversation_active := true,
       needs_followup := true })
  | .ok transformed =>
    -- lines 73-79: replace tool_outputs["personality_llm"] (assignment, not append)
    let s : AgentState :=
      if original = "" then s
      else { s with tool_outputs := { s.tool_outputs with
        personality_llm := [{ input := original, output := transformed, timestamp := now }] } }
    -- lines 81-89: first enhance_response audit entry
    let s : AgentState := { s with workflow_history := s.workflow_history ++
      [{ agent_name := "personality", action := some "enhance_response",
         input := some original, output := some transformed, timestamp := some now }] }
    -- lines 94-102: assemble the final payload
    let payload : Payload :=
      { response := transformed,
        source_agent_response := original,
        agent_workflow := s.workflow_history,
        conversation_active := s.conversation_active.getD true,
        needs_followup := s.needs_followup.getD true,
        error := s.error }
    -- lines 104-121: state updates and the second enhance_response entry
    let s : AgentState := { s with
      messages := s.messages ++ [{ role := Role.ai, content := transformed }],
      personality_output := some payload,
      current_agent := some "personality",
      agent_stack := s.agent_stack ++ ["personality"],
      workflow_history := s.workflow_history ++
        [{ agent_name := "personality", action := some "enhance_response",
           input := some original, output := some transformed, timestamp := some now }] }
    (s, payload)

/-! ## Support worker (`agents/support.py`) -/

/-- `support.py` lines 23-27: keywords classifying a request as a
call-scheduling intent. -/
def callKeywords : List String :=
  ["call", "schedule", "appointment", "meeting", "talk",
   "discuss", "phone", "speak", "consultation", "demo",
   "training", "walkthrough", "setup"]

/-- `support.py` line 29: keyword-based intent classification. -/
def scheduleIntent (user_input : String) : Bool :=
  callKeywords.any (fun keyword => containsSub (strLower user_input) keyword)

/-- The customer request data loaded from the JSON template file
(`one.json` / `two.json`): the `request_data` fields the worker reads.
A missing key and a JSON `null` are both `none`. -/
structure RequestData where
  issue_description : Option String := none
  issue_summary : Option String := none
  preferred_date : Option String := none
  preferred_time : Option String := none
deriving DecidableEq, Repr

/-- Python falsiness of `request_data.get(field)`. -/
def falsyField : Option String → Bool
  | none => true
  | some s => s = ""

/-- Result of `process_customer_data`. -/
structure ProcessResult where
  intent : String
  data : Option RequestData
  error : Option String
deriving DecidableEq, Repr

/-- `support.py` `process_customer_data`.  The template-file load is an
external effect, passed in as `fileLoad` (`.error e` models the raised
exception caught at lines 41-46). -/
def process_customer_data (user_input : String)
    (fileLoad : Except String RequestData) : ProcessResult :=
  let intent := if scheduleIntent user_input then "schedule_call" else "create_ticket"
  match fileLoad with
  | .ok d => { intent := intent, data := some d, error := none }
  | .error e =>
      { intent := intent, data := none, error := some ("Error loading customer data: " ++ e) }

/-- `support.py` lines 149-156: the list of missing required fields for
a support call, in the order the code checks them. -/
def missingFieldsOf (d : RequestData) : List String :=
  (if falsyField d.preferred_time then ["preferred time"] else []) ++
  (if falsyField d.issue_summary then ["issue summary"] else []) ++
  (if falsyField d.preferred_date then ["preferred date"] else [])

/-- `", ".join`. -/
def joinComma : List String → String
  | [] => ""
  | [x] => x
  | x :: y :: rest => x ++ ", " ++ joinComma (y :: rest)

/-- `support.py` lines 190-193: follow-up phrases already inviting more
questions. -/
def followPhrases : List String :=
  ["anything else", "other questions", "can i help", "need clarification", "is there anything"]

/-- `support.py` lines 203-235: the `except` block of the support
worker. -/
def supportExceptBranch (s : AgentState) (errmsg : String) (now : String) : AgentState :=
  { s with
    error := some errmsg,
    messages := s.messages ++
      [{ role := Role.ai,
         content := "I apologize, but I need some additional information. Could you please provide:\n1. A detailed description of your issue\n2. Your preferred priority level (if applicable)\n3. The best time to contact you (if you\x27d like a call)" }],
    needs_followup := some true,
    workflow_history := s.workflow_history ++
      [{ agent_name := "support", action := some "error_handling",
         error := some errmsg, timestamp := some now }],
    tool_outputs := { s.tool_outputs with
      create_support_ticket := [], schedule_support_call := [] },
    support_context := some { interaction_history := (s.support_context.getD {}).interaction_history } }

/-- `support.py` lines 182-201: the success path after the agent
executor returned a final output `out`. -/
def supportSuccess (s : AgentState) (out : String) (now : String) : AgentState :=
  let s : AgentState := { s with workflow_history := s.workflow_history ++
    [{ agent_name := "support", timestamp := some now }] }
  let response_content :=
    if followPhrases.any (fun phrase => containsSub (strLower out) phrase) then out
    else out ++ "\n\nIs there anything else I can help you with?"
  { s with
    messages := s.messages ++ [{ role := Role.ai, content := response_content }],
    agent_outcome := some out,
    error := none,
    needs_followup := some true,
    is_complete := some true }

/-- `support.py` `customer_support_agent`: the Support worker.
`fileLoad` is the JSON template-file load performed by
`process_customer_data`; `exec` is the reasoning delegation to the
completion service through the agent executor (`.error e` models a
raised exception, caught by the `except` block). -/
def customer_support_agent (s0 : AgentState)
    (fileLoad : Except String RequestData)
    (exec : String → Except String String) (now : String) : AgentState :=
  -- lines 50-74: initialization and the handle_request audit entry
  let s : AgentState := { s0 with
    current_agent := some "support",
    agent_stack := s0.agent_stack ++ ["support"],
    support_context := some (s0.support_context.getD {}),
    workflow_history := s0.workflow_history ++
      [{ agent_name := "support", action := some "handle_request",
         input := some s0.input, timestamp := some now }] }
  let pr := process_customer_data s.input fileLoad
  -- lines 79-85: template-load failure
  if truthyStr pr.error then
    { s with
      error := pr.error,
      messages := s.messages ++
        [{ role := Role.ai,
           content := "I apologize, but I encountered an issue: " ++ pr.error.getD "" ++
             ". Could you please provide your request details again?" }] }
  else
    -- lines 137-236: the try block
    let d := pr.data.getD {}
    if pr.intent = "create_ticket" then
      match d.issue_description with
      | none =>
        -- line 145 raises KeyError("issue_description"), caught below
        supportExceptBranch s
          "Error in customer support agent: \x27issue_description\x27" now
      | some desc =>
        let tool_input :=
          "\n                Create a support ticket with:\n                - issue_description: " ++
          desc ++ "\n                - priority: normal\n                - category: general\n            "
        match exec tool_input with
        | .ok out => supportSuccess s out now
        | .error e => supportExceptBranch s ("Error in customer support agent: " ++ e) now
    else
      -- lines 147-165: missing-field pre-validation for schedule_call
      let missing := missingFieldsOf d
      if missing ≠ [] then
        { s with
          error := some ("Missing required fields: " ++ joinComma missing),
          messages := s.messages ++
            [{ role := Role.ai,
               content := "I need some additional information to schedule your support call. Please provide: " ++
                 joinComma missing ++ "." }],
          needs_followup := some true }
      else
        -- lines 167-173: structured command for the executor
        let tool_input :=
          "schedule_support_call(\"" ++ d.preferred_date.getD "" ++ "\", \"" ++
            d.preferred_time.getD "" ++ "\", \"" ++ d.issue_summary.getD "" ++ "\", \"general\")"
        match exec tool_input with
        | .ok out => supportSuccess s out now
        | .error e => supportExceptBranch s ("Error in customer support agent: " ++ e) now

/-! ## Theorems -/

/-- Claim C2 (code_bug evidence): `schedule_support_call` ignores any
requested date or time — the source hardcodes `preferred_date =
"2025-05-26"` and `preferred_time = "14:30"` and takes no date/time
parameters, so every call returns the Monday success confirmation and
no input can ever be rejected with a business-hours, weekday, or format
error.  In particular a caller wanting an 08:00 call cannot express it
and receives a success confirmation for 2025-05-26 14:30. -/
theorem schedule_call_ignores_window_inputs :
    (∀ (issue_summary call_type uuid8 now : String) (st : Option AgentState),
      (schedule_support_call issue_summary call_type uuid8 now st).1 =
        "\n    📞 Support Call Scheduled Successfully!\n    Appointment ID: " ++
          ("APT-" ++ strUpper uuid8) ++
          "\n    Scheduled: " ++ formatLongDate 2025 5 26 ++ " at " ++ format12h 14 30 ++
          "\n    Call Type: " ++
          pyTitle (if strLower call_type ∉ callTypes then "general" else call_type) ++
          "\n    Issue: " ++ issue_summary ++
          "\n    Note: Calls occur only during business hours (9 AM - 5 PM, Mon-Fri).\n    ") ∧
    formatLongDate 2025 5 26 = "Monday, May 26, 2025" ∧
    format12h 14 30 = "02:30 PM" ∧
    (schedule_support_call "login help before work at 08:00" "general" "ab12cd34" "2025-05-20 10:00:00" none).1 ≠
      "❌ Error: Time must be between 9:00 AM and 5:00 PM." ∧
    (schedule_support_call "login help before work at 08:00" "general" "ab12cd34" "2025-05-20 10:00:00" none).1 ≠
      "❌ Error: Appointments only on weekdays." ∧
    (schedule_support_call "login help before work at 08:00" "general" "ab12cd34" "2025-05-20 10:00:00" none).1 ≠
      "❌ Error: Date format (YYYY-MM-DD) and time format (HH:MM) required." := by
  refine ⟨fun issue_summary call_type uuid8 now st => ?_, by decide, by decide, by decide, by decide, by decide⟩
  cases st <;> rfl

/-- Claim C10 (confirmed): `create_support_ticket` is total and never
rejects its arguments: it always returns the success confirmation
containing the freshly generated ticket identifier `TICK-<uuid8>`, and
the ledger entry silently records a priority outside
`{low, normal, high, urgent}` as `"normal"` and a category outside
`{billing, technical, account, general, refund}` as `"general"`. -/
theorem create_ticket_total_success :
    (∀ (d p c uuid8 now : String) (s : AgentState),
      (create_support_ticket d p c uuid8 now (some s)).1 =
        "\n    ✅ Support Ticket Created Successfully!\n    Ticket ID: " ++
          ("TICK-" ++ strUpper uuid8) ++
          "\n    Issue Description: " ++ d ++
          "\n    Expected Response Time:\n    - Low: 24-48 hrs | Normal: 12-24 hrs | High: 4-8 hrs | Urgent: 1-2 hrs\n    " ∧
      ((create_support_ticket d p c uuid8 now (some s)).2.getD s).tool_outputs.create_support_ticket.getLast? =
        some { input := [("issue_description", d),
                         ("priority", if strLower p ∈ priorities then p else "normal"),
                         ("category", if strLower c ∈ categories then c else "general")],
               output := (create_support_ticket d p c uuid8 now (some s)).1,
               timestamp := now }) ∧
    containsSub (create_support_ticket "x" "bogus" "weird" "ab12cd34" "t" none).1 "TICK-AB12CD34" = true := by
  refine ⟨fun d p c uuid8 now s => ⟨rfl, ?_⟩, by decide⟩
  by_cases hp : strLower p ∈ priorities <;>
    by_cases hc : strLower c ∈ categories <;>
      simp [create_support_ticket, hp, hc, List.getLast?_concat]

/-- Claim C8 counterexample: at a concrete successful
`create_support_ticket` call, the entry appended to
`tool_outputs["create_support_ticket"]` records the call arguments while
the entry appended to `tool_usage` records the internal ticket record,
so the two input records do not match. -/
theorem ledger_inputs_mismatch_cex :
    ((create_support_ticket "App crashes" "high" "technical" "ab12cd34" "now1" (some {})).2.map
        (fun t => (t.tool_outputs.create_support_ticket.map ActionRecord.input,
                   t.tool_usage.map ToolCall.input))) =
      some ([[("issue_description", "App crashes"), ("priority", "high"), ("category", "technical")]],
            [[("ticket_id", "TICK-AB12CD34"), ("issue_description", "App crashes")]]) ∧
    ([("issue_description", "App crashes"), ("priority", "high"), ("category", "technical")] :
        List (String × String)) ≠
      [("ticket_id", "TICK-AB12CD34"), ("issue_description", "App crashes")] := by
  exact ⟨by decide, by decide⟩

/-- Claim C8 (corrected): every successful action-tool call invoked with
a state appends exactly one entry to `tool_outputs` under the tool's
name and exactly one entry to `tool_usage`, and the two entries carry
the same output; their input records however differ (`tool_outputs`
stores the call arguments, `tool_usage` the internal ticket/appointment
record). -/
theorem ledger_one_entry_each_outputs_match
    (d p c i ct u now : String) (s : AgentState) :
    (((create_support_ticket d p c u now (some s)).2.getD s).tool_outputs.create_support_ticket.length =
        s.tool_outputs.create_support_ticket.length + 1 ∧
      ((create_support_ticket d p c u now (some s)).2.getD s).tool_usage.length =
        s.tool_usage.length + 1 ∧
      (((create_support_ticket d p c u now (some s)).2.getD s).tool_outputs.create_support_ticket.getLast?).map ActionRecord.output =
        (((create_support_ticket d p c u now (some s)).2.getD s).tool_usage.getLast?).map ToolCall.output ∧
      (((create_support_ticket d p c u now (some s)).2.getD s).tool_outputs.create_support_ticket.getLast?).map ActionRecord.input ≠
        (((create_support_ticket d p c u now (some s)).2.getD s).tool_usage.getLast?).map ToolCall.input) ∧
    (((schedule_support_call i ct u now (some s)).2.getD s).tool_outputs.schedule_support_call.length =
        s.tool_outputs.schedule_support_call.length + 1 ∧
      ((schedule_support_call i ct u now (some s)).2.getD s).tool_usage.length =
        s.tool_usage.length + 1 ∧
      (((schedule_support_call i ct u now (some s)).2.getD s).tool_outputs.schedule_support_call.getLast?).map ActionRecord.output =
        (((schedule_support_call i ct u now (some s)).2.getD s).tool_usage.getLast?).map ToolCall.output ∧
      (((schedule_support_call i ct u now (some s)).2.getD s).tool_outputs.schedule_support_call.getLast?).map ActionRecord.input ≠
        (((schedule_support_call i ct u now (some s)).2.getD s).tool_usage.getLast?).map ToolCall.input) := by
  constructor
  · refine ⟨by simp [create_support_ticket], by simp [create_support_ticket], ?_, ?_⟩
    · simp [create_support_ticket, List.getLast?_concat]
    · simp [create_support_ticket, List.getLast?_concat]
  · have hd : parseDate "2025-05-26" = some (2025, 5, 26) := rfl
    have ht : parseTime "14:30" = some (14, 30) := rfl
    have hw : weekdayMon 2025 5 26 = 0 := rfl
    refine ⟨?_, ?_, ?_, ?_⟩ <;>
      simp [schedule_support_call, hd, ht, hw, List.getLast?_concat]

/-- Claim C6 (confirmed): the Continuation Policy checks, in order:
a set error (terminal), a natural-ending phrase in the last message
(terminal), `needs_followup` (reset `is_complete`, inject the follow-up
prompt, continue to the router), and otherwise terminal. -/
theorem continuation_policy_decision_order (s : AgentState) :
    (truthyStr s.error = true → should_continue s = (s, END)) ∧
    (truthyStr s.error = false → naturalEnding s.messages = true → should_continue s = (s, END)) ∧
    (truthyStr s.error = false → naturalEnding s.messages = false →
      s.needs_followup.getD true = true →
      should_continue s =
        ({ s with is_complete := some false, input := followupPrompt }, "router")) ∧
    (truthyStr s.error = false → naturalEnding s.messages = false →
      s.needs_followup.getD true = false → should_continue s = (s, END)) := by
  refine ⟨fun h1 => ?_, fun h1 h2 => ?_, fun h1 h2 h3 => ?_, fun h1 h2 h3 => ?_⟩
  · simp [should_continue, h1]
  · simp [should_continue, h1, h2]
  · simp [should_continue, h1, h2, h3]
  · simp [should_continue, h1, h2, h3]

/-- Claim C6 witness: concrete states exercising the error case and the
follow-up case of the Continuation Policy. -/
theorem continuation_policy_decision_order_witness :
    (should_continue { error := some "boom" } = ({ error := some "boom" }, END)) ∧
    (should_continue { messages := [{ role := Role.ai, content := "Here is the info." }], needs_followup := some true } =
      ({ messages := [{ role := Role.ai, content := "Here is the info." }], needs_followup := some true,
         is_complete := some false, input := followupPrompt }, "router")) := by
  constructor
  · exact (continuation_policy_decision_order { error := some "boom" }).1 (by decide)
  · exact (continuation_policy_decision_order
      { messages := [{ role := Role.ai, content := "Here is the info." }], needs_followup := some true }).2.2.1
      (by decide) (by decide) (by decide)

/-- Claim C5 (confirmed): on a schedule-call intent with any of the
three required fields absent from the loaded request data, the support
worker appends a message listing exactly the missing fields, sets
`needs_followup := true`, records the missing fields in `state.error`,
and returns without consulting the completion service or any tool (its
result does not depend on the executor oracle at all). -/
theorem support_missing_fields_short_circuit
    (s : AgentState) (d : RequestData)
    (exec exec' : String → Except String String) (now : String)
    (hIntent : scheduleIntent s.input = true)
    (hMissing : missingFieldsOf d ≠ []) :
    (customer_support_agent s (.ok d) exec now).messages =
      s.messages ++
        [{ role := Role.ai,
           content := "I need some additional information to schedule your support call. Please provide: " ++
             joinComma (missingFieldsOf d) ++ "." }] ∧
    (customer_support_agent s (.ok d) exec now).needs_followup = some true ∧
    (customer_support_agent s (.ok d) exec now).error =
      some ("Missing required fields: " ++ joinComma (missingFieldsOf d)) ∧
    customer_support_agent s (.ok d) exec now = customer_support_agent s (.ok d) exec' now := by
  refine ⟨?_, ?_, ?_, ?_⟩ <;>
    simp [customer_support_agent, process_customer_data, truthyStr, hIntent, hMissing]

/-- Claim C5 witness: the spec's missing-fields scenario — summary
present, date and time absent — yields the message listing exactly
`preferred time, preferred date`, with the executor oracle never
consulted. -/
theorem support_missing_fields_short_circuit_witness :
    scheduleIntent "I want to schedule a call" = true ∧
    missingFieldsOf { issue_summary := some "login issue" } ≠ [] ∧
    (customer_support_agent { input := "I want to schedule a call" }
        (.ok { issue_summary := some "login issue" }) (fun _ => .ok "reply A") "t").messages =
      [{ role := Role.ai,
         content := "I need some additional information to schedule your support call. Please provide: preferred time, preferred date." }] ∧
    customer_support_agent { input := "I want to schedule a call" }
        (.ok { issue_summary := some "login issue" }) (fun _ => .ok "reply A") "t" =
      customer_support_agent { input := "I want to schedule a call" }
        (.ok { issue_summary := some "login issue" }) (fun _ => .error "service down") "t" := by
  have h := support_missing_fields_short_circuit { input := "I want to schedule a call" }
    { issue_summary := some "login issue" } (fun _ => .ok "reply A") (fun _ => .error "service down") "t"
    (by decide) (by decide)
  exact ⟨by decide, by decide, by simpa using h.1, h.2.2.2⟩

/-- Claim C4 counterexample: with no worker outcome and an empty
transcript, the Formatter returns a payload whose `response` is the
empty string (the empty original is passed through untransformed), not a
non-empty one as the claim states; `conversation_active` is true. -/
theorem formatter_empty_state_empty_response_cex :
    (personality_agent { input := "hi", messages := [], agent_outcome := none }
        (fun _ => Except.ok "formatted") "t").2.response = "" ∧
    (personality_agent { input := "hi", messages := [], agent_outcome := none }
        (fun _ => Except.ok "formatted") "t").2.conversation_active = true := by
  exact ⟨rfl, rfl⟩

/-- Claim C4 (corrected): the Formatter is total on the embedded state
and degrades gracefully.  Given `agent_outcome = none`, empty `messages`
and the default conversation flag, it returns a payload with `response`
equal to the empty string and `conversation_active = true` (the
completion service is not even consulted); and whenever the extracted
original response is non-empty and the completion service raises, the
payload is exactly the fixed apology fallback with
`conversation_active = true` and `needs_followup = true`. -/
theorem formatter_total_and_graceful
    (s : AgentState) (llm : String → Except String String) (now : String) (e : String) :
    ((s.agent_outcome = none → s.messages = [] → s.conversation_active.getD true = true →
      (personality_agent s llm now).2.response = "" ∧
      (personality_agent s llm now).2.conversation_active = true)) ∧
    (originalResponse s ≠ "" → llm (originalResponse s) = .error e →
      (personality_agent s llm now).2 =
        { response := personalityApology,
          source_agent_response := originalResponse s,
          agent_workflow := [{ agent_name := "error" }],
          conversation_active := true,
          needs_followup := true }) := by
  constructor
  · intro h1 h2 h3
    have horig : originalResponse s = "" := by
      simp [originalResponse, h1, h2]
    constructor <;> simp [personality_agent, horig, h3]
  · intro h1 h2
    simp [personality_agent, h1, h2]

/-- Claim C4 witness: the theorem applied to the claim's empty scenario
and to a concrete formatter failure. -/
theorem formatter_total_and_graceful_witness :
    ((personality_agent { input := "hi", agent_outcome := none, messages := [] }
        (fun _ => Except.ok "formatted") "t").2.response = "" ∧
      (personality_agent { input := "hi", agent_outcome := none, messages := [] }
        (fun _ => Except.ok "formatted") "t").2.conversation_active = true) ∧
    (personality_agent { agent_outcome := some "the worker answer" }
        (fun _ => Except.error "rate limited") "t").2 =
      { response := personalityApology,
        source_agent_response := "the worker answer",
        agent_workflow := [{ agent_name := "error" }],
        conversation_active := true,
        needs_followup := true } := by
  constructor
  · exact (formatter_total_and_graceful { input := "hi", agent_outcome := none, messages := [] }
      (fun _ => Except.ok "formatted") "t" "unused").1 rfl rfl (by decide)
  · exact (formatter_total_and_graceful { agent_outcome := some "the worker answer" }
      (fun _ => Except.error "rate limited") "t" "rate limited").2 (by decide) rfl

/-- Claim C3 counterexample: the input `"goodbye "` (trailing space) has
lowercased-and-trimmed form `"goodbye"`, an end token, yet the
Classifier does not take the fast path: it invokes the completion
service (one `router_llm` call is recorded), leaves
`conversation_active` true and routes to `support`. -/
theorem fast_path_requires_untrimmed_cex :
    strStrip (strLower "goodbye ") ∈ endTokens ∧
    (route_message { input := "goodbye " } (.ok "support") "t").next = "support" ∧
    (route_message { input := "goodbye " } (.ok "support") "t").conversation_active = some true ∧
    ((route_message { input := "goodbye " } (.ok "support") "t").tool_outputs.router_llm.map
      (fun r => r.calls.length)) = some 1 := by
  exact ⟨by decide, by decide, by decide, by decide⟩

/-- Claim C3 (corrected): the fast path triggers exactly on inputs whose
lowercased form — with no trimming — is an end token; for those the
Classifier sets `conversation_active := false`, `next := END`, records
no `router_llm` call and returns a result independent of the completion
service. -/
theorem fast_path_via_lowercase_exact
    (s : AgentState) (reply reply' : Except String String) (now : String)
    (h : strLower s.input ∈ endTokens) :
    (route_message s reply now).conversation_active = some false ∧
    (route_message s reply now).next = END ∧
    (route_message s reply now).tool_outputs.router_llm = s.tool_outputs.router_llm ∧
    route_message s reply now = route_message s reply' now := by
  refine ⟨?_, ?_, ?_, ?_⟩ <;> simp [route_message, route_init, h]

/-- Claim C3 witness: the end token `"QUIT"` (uppercase) takes the fast
path irrespective of the completion service's behaviour. -/
theorem fast_path_via_lowercase_exact_witness :
    (route_message { input := "QUIT" } (.ok "support") "t").conversation_active = some false ∧
    (route_message { input := "QUIT" } (.ok "support") "t").next = END ∧
    route_message { input := "QUIT" } (.ok "support") "t" =
      route_message { input := "QUIT" } (.error "service down") "t" := by
  have h := fast_path_via_lowercase_exact { input := "QUIT" } (.ok "support")
    (.error "service down") "t" (by decide)
  exact ⟨h.1, h.2.1, h.2.2.2⟩

/-- Claim C7 counterexample: after a caught completion-service failure
the Classifier does set `next = support` and record the error, but the
conditional edge out of the router then routes the error state to `END`:
the turn is aborted by routing, contradicting the claim. -/
theorem router_error_aborts_turn_cex :
    (route_message { input := "hello" } (.error "boom") "t").next = "support" ∧
    (route_message { input := "hello" } (.error "boom") "t").error = some "boom" ∧
    route_edge (route_message { input := "hello" } (.error "boom") "t") = END := by
  exact ⟨by decide, by decide, by decide⟩

/-- Claim C7 (corrected): every completion-service exception during
routing is caught, recorded into `state.error`, and the step defaults
`next := "support"`; however, since the conditional edge routes any
state with a non-empty error to `END`, the turn does terminate after
such a failure instead of reaching the support worker. -/
theorem router_llm_failure_defaults_support
    (s : AgentState) (e : String) (now : String)
    (h : strLower s.input ∉ endTokens) :
    (route_message s (.error e) now).next = "support" ∧
    (route_message s (.error e) now).error = some e ∧
    (e ≠ "" → route_edge (route_message s (.error e) now) = END) := by
  refine ⟨?_, ?_, fun he => ?_⟩
  · simp [route_message, route_init, h]
  · simp [route_message, route_init, h]
  · simp [route_message, route_init, route_edge, truthyStr, h, he]

/-- Claim C7 witness: a concrete completion-service failure on a
non-end-token input. -/
theorem router_llm_failure_defaults_support_witness :
    (route_message { input := "hello" } (.error "timeout") "t").next = "support" ∧
    route_edge (route_message { input := "hello" } (.error "timeout") "t") = END := by
  have h := router_llm_failure_defaults_support { input := "hello" } "timeout" "t" (by decide)
  exact ⟨h.1, h.2.2 (by decide)⟩

/-- Claim C9 counterexample: with a prior worker outcome present and a
queued task, a completion-service reply of `"end"` does set both flags
false, yet the final routing decision is `"support"` (the task-queue
path overrides it), not terminal as the claim states. -/
theorem end_reply_overridden_by_task_queue_cex :
    (route_message { input := "hello", agent_outcome := some "done", task_list := ["check refund status"] }
        (.ok "end") "t").next = "support" ∧
    (route_message { input := "hello", agent_outcome := some "done", task_list := ["check refund status"] }
        (.ok "end") "t").next ≠ END ∧
    (route_message { input := "hello", agent_outcome := some "done", task_list := ["check refund status"] }
        (.ok "end") "t").conversation_active = some false ∧
    (route_message { input := "hello", agent_outcome := some "done", task_list := ["check refund status"] }
        (.ok "end") "t").needs_followup = some false := by
  exact ⟨by decide, by decide, by decide, by decide⟩

/-- Claim C9 (corrected): a normalized completion-service reply of
`"end"` always sets `conversation_active := false` and
`needs_followup := false` before the override check, and the
loop-prevention override never undoes it; the final decision is terminal
whenever no prior worker outcome is present or the task list is empty —
otherwise the task-queue path redirects the turn to `support`. -/
theorem end_reply_sets_flags_and_terminal_unless_tasks
    (s : AgentState) (content now : String)
    (hend : strStrip (strLower content) = "end")
    (hfast : strLower s.input ∉ endTokens) :
    (route_message s (.ok content) now).conversation_active = some false ∧
    (route_message s (.ok content) now).needs_followup = some false ∧
    ((s.agent_outcome = none ∨ s.task_list = []) →
      (route_message s (.ok content) now).next = END) := by
  have hE : strLower (strStrip "__end__") = "__end__" := rfl
  refine ⟨?_, ?_, fun htask => ?_⟩
  · cases ho : s.agent_outcome <;> cases ht : s.task_list <;>
      simp [route_message, route_init, route_after_llm, route_decide, route_validate, truthyB,
        hend, hfast, ho, ht, hE, END]
  · cases ho : s.agent_outcome <;> cases ht : s.task_list <;>
      simp [route_message, route_init, route_after_llm, route_decide, route_validate, truthyB,
        hend, hfast, ho, ht, hE, END]
  · rcases htask with h | h
    · simp [route_message, route_init, route_after_llm, route_decide, route_validate, truthyB,
        hend, hfast, h, hE, END]
    · cases ho : s.agent_outcome <;>
        simp [route_message, route_init, route_after_llm, route_decide, route_validate, truthyB,
          hend, hfast, h, ho, hE, END]

/-- Claim C9 witness: an `"end"` reply (with surrounding whitespace and
capitals) on a fresh state terminates with both flags false. -/
theorem end_reply_sets_flags_and_terminal_unless_tasks_witness :
    (route_message { input := "hello" } (.ok " END ") "t").conversation_active = some false ∧
    (route_message { input := "hello" } (.ok " END ") "t").needs_followup = some false ∧
    (route_message { input := "hello" } (.ok " END ") "t").next = END := by
  have h := end_reply_sets_flags_and_terminal_unless_tasks { input := "hello" } " END " "t"
    (by decide) (by decide)
  exact ⟨h.1, h.2.1, h.2.2 (Or.inl rfl)⟩

/-- Helper: if the validation-plus-override step returns the terminal
marker, the loop-prevention override did not fire, so one of the two
continuation flags (with their Python defaults) is false. -/
theorem route_validate_eq_end (na : String) (s : AgentState)
    (h : route_validate na s = END) :
    s.conversation_active.getD true = false ∨ s.needs_followup.getD true = false := by
  by_cases hc : s.conversation_active.getD true
  · by_cases hn : s.needs_followup.getD true
    · exfalso
      simp only [route_validate, hc, hn] at h
      split_ifs at h with h1 h2 h3 <;> simp_all [END]
    · exact Or.inr (by simpa using hn)
  · exact Or.inl (by simpa using hc)

/-- Helper: the validated decision on `"knowledge"` is `"knowledge"`. -/
theorem route_validate_knowledge (s : AgentState) :
    route_validate "knowledge" s = "knowledge" := rfl

/-- Helper: the validated decision on `"support"` is `"support"`. -/
theorem route_validate_support (s : AgentState) :
    route_validate "support" s = "support" := rfl

/-- Helper: the routing step stores exactly the validated decision. -/
theorem route_after_llm_next (s : AgentState) (content now : String) :
    (route_after_llm s content now).next =
      route_validate (route_decide s content now).1 (route_decide s content now).2 := by
  simp only [route_after_llm]

/-- Helper: the routing step's final conversation flag is the one left
by the decision part. -/
theorem route_after_llm_ca (s : AgentState) (content now : String) :
    (route_after_llm s content now).conversation_active =
      (route_decide s content now).2.conversation_active := by
  simp only [route_after_llm]

/-- Helper: exhaustive case analysis of the decision part.  Either it
already switched the conversation off; or the conversation was already
off and the flag is untouched; or the flags are untouched and the
decision is one of the two worker names; or the flags are untouched and
`needs_followup` is (still) truthy. -/
theorem route_decide_cases (s : AgentState) (content now : String) :
    (route_decide s content now).2.conversation_active = some false ∨
    ((route_decide s content now).2.conversation_active = s.conversation_active ∧
      truthyB s.conversation_active = false) ∨
    ((route_decide s content now).2.conversation_active = s.conversation_active ∧
      (route_decide s content now).2.needs_followup = s.needs_followup ∧
      ((route_decide s content now).1 = "knowledge" ∨ (route_decide s content now).1 = "support")) ∨
    ((route_decide s content now).2.conversation_active = s.conversation_active ∧
      (route_decide s content now).2.needs_followup = s.needs_followup ∧
      truthyB (route_decide s content now).2.needs_followup = true) := by
  by_cases hend : strStrip (strLower content) = "end"
  · left
    cases ho : s.agent_outcome <;> cases ht : s.task_list <;>
      simp [route_decide, hend, ho, ht, truthyB]
  · cases ho : s.agent_outcome
    · by_cases hca : truthyB s.conversation_active
      · right; right; left
        by_cases hm : strStrip (strLower content) ∈ ["knowledge", "support"]
        · refine ⟨?_, ?_, ?_⟩ <;>
            · simp [route_decide, hend, ho, hca, hm]
              try simpa using hm
        · refine ⟨?_, ?_, ?_⟩ <;> simp [route_decide, hend, ho, hca, hm]
      · right; left
        constructor
        · by_cases hm : strStrip (strLower content) ∈ ["knowledge", "support"] <;>
            simp [route_decide, hend, ho, hca, hm]
        · simpa using hca
    · by_cases hnf : truthyB s.needs_followup
      · right; right; right
        refine ⟨?_, ?_, ?_⟩ <;>
          by_cases hm : strStrip (strLower content) ∈ ["knowledge", "support"] <;>
            · simp [route_decide, hend, ho, hnf, hm]
              try simpa [truthyB] using hnf
      · cases ht : s.task_list
        · left
          by_cases hm : strStrip (strLower content) ∈ ["knowledge", "support"] <;>
            simp [route_decide, hend, ho, hnf, ht, hm]
        · right; right; left
          refine ⟨?_, ?_, ?_⟩ <;>
            by_cases hm : strStrip (strLower content) ∈ ["knowledge", "support"] <;>
              simp [route_decide, hend, ho, hnf, ht, hm]

/-- Claim C1 counterexample: a Classifier run entered with
`conversation_active = some false` and `needs_followup = some true`, a
non-end-token input and a completion reply of `"knowledge"` produces a
terminal decision — terminal routing that came neither from the
end-token fast path, nor from an `"end"` reply, nor from the
Continuation Policy. -/
theorem router_terminal_extra_source_cex :
    (route_message { input := "hello", conversation_active := some false, needs_followup := some true }
        (.ok "knowledge") "t").next = END ∧
    strLower "hello" ∉ endTokens ∧
    strStrip (strLower "knowledge") ≠ "end" := by
  exact ⟨by decide, by decide, by decide⟩

/-- Claim C1 (corrected): the loop-prevention invariant that actually
holds — whenever the Classifier stores a terminal decision, the returned
state has `conversation_active = some false`; equivalently, terminal
routing never leaves the Classifier while the conversation is still
flagged active, so the override (which rewrites a terminal decision to
`"support"` whenever both flags are still true) can never be bypassed
into an accidental ending.  Beyond the end-token fast path and the
`"end"` reply, terminal can also arise from the completed-outcome path
or from a conversation already flagged inactive on entry, and each of
those also ends with the flag false. -/
theorem router_terminal_only_when_inactive
    (s : AgentState) (reply : Except String String) (now : String)
    (h : (route_message s reply now).next = END) :
    (route_message s reply now).conversation_active = some false := by
  by_cases hfast : strLower s.input ∈ endTokens
  · simp [route_message, route_init, hfast]
  · cases reply with
    | error e =>
      exfalso
      simp [route_message, route_init, hfast, END] at h
    | ok content =>
      have hs : route_message s (.ok content) now = route_after_llm (route_init s now) content now := by
        simp [route_message, route_init, hfast]
      rw [hs] at h ⊢
      rw [route_after_llm_next] at h
      rw [route_after_llm_ca]
      have ha : (route_init s now).conversation_active = some (s.conversation_active.getD true) := by
        simp [route_init]
      have hb : (route_init s now).needs_followup = some (s.needs_followup.getD true) := by
        simp [route_init]
      rcases route_decide_cases (route_init s now) content now with
        d1 | ⟨d2a, d2b⟩ | ⟨d3a, _, d3c⟩ | ⟨d4a, d4b, d4c⟩
      · exact d1
      · rw [d2a, ha]
        rw [ha] at d2b
        simpa [truthyB] using d2b
      · exfalso
        rcases d3c with hk | hk <;> rw [hk] at h
        · rw [route_validate_knowledge] at h
          exact absurd h (by decide)
        · rw [route_validate_support] at h
          exact absurd h (by decide)
      · rcases route_validate_eq_end _ _ h with hc | hn
        · rw [d4a, ha] at hc ⊢
          simpa using hc
        · exfalso
          rw [d4b, hb] at d4c
          rw [d4b, hb] at hn
          simp [truthyB] at d4c
          simp [d4c] at hn
      
/-- Claim C1 witness: a fast-path ending — terminal decision with the
conversation flag off. -/
theorem router_terminal_only_when_inactive_witness :
    (route_message { input := "goodbye" } (.ok "support") "t").next = END ∧
    (route_message { input := "goodbye" } (.ok "support") "t").conversation_active = some false := by
  exact ⟨by decide,
    router_terminal_only_when_inactive { input := "goodbye" } (.ok "support") "t" (by decide)⟩

end AgentSwarm
